import Mathlib

/-!
A shallow embedding of gunicorn's `gunicorn/wsgi.py` (Response,
KeepAliveResponse, Request, KeepAliveRequest) together with theorems that
settle the specification claims about it.

Stateful Python objects are embedded as Lean structures with explicit state
passing; every socket send appends one element to a transcript list held in
the state.  Helpers from `gunicorn/util.py` (`is_hoppish`, `write`,
`write_chunk`, `http_date`) are not part of the sources and are modelled
from the spec where noted.  Python's `str.lower`, `str.strip` and
`str.split` are embedded as executable character-list functions (`pyLower`,
`pyStrip`, `pySplit`) so that concrete evaluation goes through the kernel.
-/

namespace GunicornWsgi

/-- Python `str.lower()` (ASCII case folding, as used on header names). -/
def pyLower (s : String) : String := String.mk (s.data.map Char.toLower)

/-- Whitespace-stripping on a character list, both ends. -/
def stripChars (l : List Char) : List Char :=
  ((l.dropWhile Char.isWhitespace).reverse.dropWhile Char.isWhitespace).reverse

/-- Python `str.strip()` with no argument: drop whitespace from both ends. -/
def pyStrip (s : String) : String := String.mk (stripChars s.data)

/-- Splitting a character list on every occurrence of a separator; the
result always has at least one group (`[] ↦ [[]]`, matching Python's
`"".split(c) == ['']`). -/
def splitChars (sep : Char) : List Char → List (List Char)
  | [] => [[]]
  | c :: rest =>
    match splitChars sep rest with
    | [] => [[]]
    | g :: gs => if c = sep then [] :: g :: gs else (c :: g) :: gs

/-- Python `s.split(sep)` for a one-character separator, no maxsplit. -/
def pySplit (sep : Char) (s : String) : List String :=
  (splitChars sep s.data).map String.mk

/-- Modelled from the spec: the canonical hop-by-hop header set used by the
`isHopByHop` check of the header utilities (`gunicorn/util.py`, not in the
sources): Connection, Keep-Alive, Proxy-Authenticate, Proxy-Authorization,
TE, Trailers, Transfer-Encoding, Upgrade. -/
def hop_headers : List String :=
  ["connection", "keep-alive", "proxy-authenticate", "proxy-authorization",
   "te", "trailers", "transfer-encoding", "upgrade"]

/-- Modelled from the spec: `isHopByHop` is a fixed allow-list check against
the canonical hop-by-hop set, case-insensitive (names normalized by
lowercasing and trimming, as in every header-name comparison of wsgi.py). -/
def is_hoppish (name : String) : Bool :=
  hop_headers.contains (pyStrip (pyLower name))

/-- Modelled from the spec: one chunked-encoding frame as produced by
`util.write_chunk` — hex length, CRLF, the data, CRLF.  The terminal frame
for empty data is `0\r\n\r\n`. -/
def write_chunk_payload (data : String) : String :=
  String.mk (Nat.toDigits 16 data.utf8ByteSize) ++ "\r\n" ++ data ++ "\r\n"

/-- Which `default_headers` implementation a response uses: the base
`Response` class or the `KeepAliveResponse` subclass. -/
inductive RespKind
  | base
  | keepAlive
deriving DecidableEq

/-- State of one `Response` object (wsgi.py lines 30-81).  `sock` is the
transcript of strings sent on `self.req.socket`, one entry per call to
`util.write`.  `date` stands for the `http_date()` string rendered for this
response (the clock is external); `req_should_close` is the value of
`self.req.req.should_close()` consulted by the keep-alive variant. -/
structure Response where
  status : String
  version : String
  date : String
  req_should_close : Bool
  kind : RespKind
  chunked : Bool
  headers : List (String × String)
  headers_sent : Bool
  sock : List String
deriving DecidableEq

/-- The header-filtering loop of `Response.__init__` (wsgi.py lines 40-54),
as a left-to-right pass carrying the `chunked` flag and the accumulated
header list.  Note that the `transfer-encoding` branch has no `continue`:
control falls through to the append in both of its sub-cases. -/
def Response.processHeaders (chunked : Bool) (acc : List (String × String)) :
    List (String × String) → Bool × List (String × String)
  | [] => (chunked, acc)
  | (name, value) :: rest =>
    if is_hoppish name then
      let lname := pyStrip (pyLower name)
      if lname = "transfer-encoding" then
        if pyStrip (pyLower value) = "chunked" then
          Response.processHeaders true (acc ++ [(pyStrip name, pyStrip value)]) rest
        else
          Response.processHeaders chunked (acc ++ [(pyStrip name, pyStrip value)]) rest
      else if lname = "connection" then
        if pyStrip (pyLower value) ≠ "upgrade" then
          Response.processHeaders chunked acc rest
        else
          Response.processHeaders chunked (acc ++ [(pyStrip name, pyStrip value)]) rest
      else
        Response.processHeaders chunked acc rest
    else
      Response.processHeaders chunked (acc ++ [(pyStrip name, pyStrip value)]) rest

/-- `Response.__init__` (wsgi.py lines 32-54).  Header names and values are
strings here (the `assert isinstance(name, basestring)` passes, and
`str(value)` is the identity on strings); `chunked` starts False, the
headers-sent flag starts False, nothing has been written yet. -/
def Response.init (version date : String) (req_should_close : Bool)
    (kind : RespKind) (status : String)
    (headers : List (String × String)) : Response :=
  let processed := Response.processHeaders false [] headers
  { status := status, version := version, date := date,
    req_should_close := req_should_close, kind := kind,
    chunked := processed.1, headers := processed.2,
    headers_sent := false, sock := [] }

/-- `Response.default_headers` (wsgi.py lines 56-62): status line, Server,
Date, and an unconditional `Connection: close`. -/
def Response.default_headers (r : Response) : List String :=
  ["HTTP/1.1 " ++ r.status ++ "\r\n",
   "Server: " ++ r.version ++ "\r\n",
   "Date: " ++ r.date ++ "\r\n",
   "Connection: close\r\n"]

/-- `KeepAliveResponse.default_headers` (wsgi.py lines 85-95): same first
three lines; the Connection value is `close` when the parsed request's
`should_close()` signal is true, `keep-alive` otherwise. -/
def KeepAliveResponse.default_headers (r : Response) : List String :=
  let connection := if r.req_should_close then "close" else "keep-alive"
  ["HTTP/1.1 " ++ r.status ++ "\r\n",
   "Server: " ++ r.version ++ "\r\n",
   "Date: " ++ r.date ++ "\r\n",
   "Connection: " ++ connection ++ "\r\n"]

/-- Dynamic dispatch of `self.default_headers()` according to the class of
the response object. -/
def Response.dispatchDefaultHeaders (r : Response) : List String :=
  match r.kind with
  | .base => Response.default_headers r
  | .keepAlive => KeepAliveResponse.default_headers r

/-- The single string sent by `send_headers` (wsgi.py line 69):
`"%s\r\n" % "".join(tosend)` where `tosend` is the default header lines
followed by one `Name: Value\r\n` line per retained header. -/
def Response.headerBlock (r : Response) : String :=
  String.join (r.dispatchDefaultHeaders ++
    r.headers.map (fun nv => nv.1 ++ ": " ++ nv.2 ++ "\r\n")) ++ "\r\n"

/-- `Response.send_headers` (wsgi.py lines 64-70): a no-op when
`headers_sent` is already set; otherwise one write of the header block and
the flag is set. -/
def Response.send_headers (r : Response) : Response :=
  if r.headers_sent then r
  else { r with sock := r.sock ++ [r.headerBlock], headers_sent := true }

/-- A Python value handed to `Response.write`: either a string (the
`isinstance(arg, basestring)` assert passes) or any non-string object. -/
inductive WData
  | str (s : String)
  | nonStr
deriving DecidableEq

/-- The typed validation failure of `Response.write`'s assert on a
non-string body value. -/
inductive WriteError
  | invalidBodyType
deriving DecidableEq

/-- `Response.write` (wsgi.py lines 72-75): first `send_headers()`, then the
assert on the argument type, then `util.write(socket, arg, chunked)` — raw
bytes when not chunked, one chunk frame when chunked (the framing is
modelled from the spec's wire-format description).  The returned state
reflects every byte sent before a failure. -/
def Response.write (r : Response) (arg : WData) : Response × Option WriteError :=
  let r := r.send_headers
  match arg with
  | .nonStr => (r, some .invalidBodyType)
  | .str s =>
    let payload := if r.chunked then write_chunk_payload s else s
    ({ r with sock := r.sock ++ [payload] }, none)

/-- `Response.close` (wsgi.py lines 77-81): send headers if not yet sent,
then the terminal zero-length chunk frame when chunked. -/
def Response.close (r : Response) : Response :=
  let r := if r.headers_sent then r else r.send_headers
  if r.chunked then { r with sock := r.sock ++ [write_chunk_payload ""] } else r

/-! ## Request-side definitions (address resolution, start_response, read) -/

/-- The `X-Forwarded-For` extraction of the header scan in `Request.read`
(wsgi.py lines 151-168): each matching header overwrites `forward_address`,
so the last occurrence wins; without a match the client address stands. -/
def Request.forwardAddress (headers : List (String × String))
    (client_address : String) : String :=
  headers.foldl
    (fun acc h => if pyLower h.1 = "x-forwarded-for" then h.2 else acc)
    client_address

/-- The colon split shared by remote and server addresses (wsgi.py lines
182-184 and 189-191): `address.split(":")`, padded with an empty string
when no colon was present, so indices 0 and 1 are always in range. -/
def Request.splitAddress (address : String) : List String :=
  let parts := pySplit ':' address
  if parts.length = 1 then parts ++ [""] else parts

/-- Elements 0 and 1 of the padded colon split, as read by the
`REMOTE_ADDR`/`REMOTE_PORT` and `SERVER_NAME`/`SERVER_PORT` entries of the
environ (wsgi.py lines 214-217). -/
def Request.addrPair (address : String) : String × String :=
  let parts := Request.splitAddress address
  (parts.headD "", parts.getD 1 "")

/-- The forwarded-address resolution of `Request.read` (wsgi.py lines
177-186) for a string address.  Line 181 assigns the trimmed last
comma-separated token to `forward_adress` — a misspelling of
`forward_address` — so that binding is never read and the split on `:`
is applied to the unmodified `forward_address`. -/
def Request.remoteAddrPair (forward_address : String) : String × String :=
  let _forward_adress :=
    if forward_address.data.contains ',' then
      pyStrip ((pySplit ',' forward_address).getLastD "")
    else forward_address
  Request.addrPair forward_address

/-- The address-related entries of the environ mapping built by
`Request.read` (wsgi.py lines 214-217). -/
structure AddrEnviron where
  REMOTE_ADDR : String
  REMOTE_PORT : String
  SERVER_NAME : String
  SERVER_PORT : String
deriving DecidableEq

/-- The address-resolution slice of `Request.read` (wsgi.py lines 145-147,
151-168, 177-191, 214-217) for string addresses: apply the
`or "127.0.0.1"` default to the client address (`none` models Python
`None`, and the empty string is falsy too), scan the parsed request's
headers for `X-Forwarded-For`, resolve the remote pair through
`remoteAddrPair`, and split the server address the same way. -/
def Request.readAddrs (headers : List (String × String))
    (client_address : Option String) (server_address : String) : AddrEnviron :=
  let client_address :=
    match client_address with
    | some s => if s = "" then "127.0.0.1" else s
    | none => "127.0.0.1"
  let forward_address := Request.forwardAddress headers client_address
  let remote_addr := Request.remoteAddrPair forward_address
  let server := Request.addrPair server_address
  { REMOTE_ADDR := remote_addr.1, REMOTE_PORT := remote_addr.2,
    SERVER_NAME := server.1, SERVER_PORT := server.2 }

/-- Follows the spec's words, not the code: split an address on the LAST
colon into host and port, with an empty port when no colon is present.
Used only to compare the code's behaviour against the spec's description. -/
def specSplitLastColon (address : String) : String × String :=
  match pySplit ':' address with
  | [] => ("", "")
  | [h] => (h, "")
  | parts => (String.intercalate ":" parts.dropLast, parts.getLastD "")

/-- The `exc_info` argument of `start_response`: an exception triple being
reported by the handler. -/
structure ExcInfo where
  info : String
deriving DecidableEq

/-- The two ways `Request.start_response` can raise: the
`AssertionError("Response headers already set!")` on an unjustified second
call, and the re-raise of the handler's captured exception. -/
inductive StartErr
  | assertionError
  | reraised (e : ExcInfo)
deriving DecidableEq

/-- State of one `Request` session as far as `start_response` is concerned:
`response` is `self.response` (initially `None`), the remaining fields are
what `RESPONSE_CLASS(self, status, headers)` reads from the session. -/
structure Session where
  version : String
  date : String
  req_should_close : Bool
  kind : RespKind
  response : Option Response
deriving DecidableEq

/-- `Request.start_response` (wsgi.py lines 228-239).  With `exc_info`: if a
response exists and its headers were sent, re-raise the captured error
(the `finally` only clears the local); otherwise fall through.  Without
`exc_info`: a pre-existing response is an `AssertionError`.  On the
fall-through a fresh `RESPONSE_CLASS` instance is installed. -/
def Request.start_response (s : Session) (status : String)
    (headers : List (String × String)) (exc_info : Option ExcInfo) :
    Except StartErr Session :=
  match exc_info with
  | some e =>
    if (match s.response with | some r => r.headers_sent | none => false) then
      .error (.reraised e)
    else
      .ok { s with response := some (Response.init s.version s.date
        s.req_should_close s.kind status headers) }
  | none =>
    if s.response.isSome then
      .error .assertionError
    else
      .ok { s with response := some (Response.init s.version s.date
        s.req_should_close s.kind status headers) }

/-- A transport (socket) error with its errno, as caught by
`KeepAliveRequest.read`. -/
structure SocketError where
  errno : Nat
deriving DecidableEq

/-- `errno.ECONNRESET` (connection reset by peer), value 104 on Linux. -/
def ECONNRESET : Nat := 104

/-- `KeepAliveRequest.read` (wsgi.py lines 246-252) as a wrapper around the
outcome of the base `Request.read`: a socket error with errno
`ECONNRESET` becomes a plain `return` (the `None` end-of-stream sentinel,
here `Option.none`); every other socket error is re-raised; a successful
environ passes through. -/
def KeepAliveRequest.read {α : Type} (base : Except SocketError α) :
    Except SocketError (Option α) :=
  match base with
  | .ok env => .ok (some env)
  | .error e => if e.errno = ECONNRESET then .ok none else .error e

/-! ## The operation sequences of one response cycle (for the
exactly-once header property) -/

/-- One operation the handler (or the session) can invoke on a response
writer after construction; `write` carries a string body value (the
assert passes). -/
inductive Op
  | sendHeaders
  | write (data : String)
  | close
deriving DecidableEq

/-- Running a sequence of operations on a response state, left to right. -/
def Response.runOps : Response → List Op → Response
  | r, [] => r
  | r, .sendHeaders :: ops => Response.runOps r.send_headers ops
  | r, .write d :: ops => Response.runOps (r.write (.str d)).1 ops
  | r, .close :: ops => Response.runOps r.close ops

/-- The body bytes a sequence of operations sends, one transcript entry per
`util.write` call that is not the header block: each `write` sends its
payload (raw or one chunk frame), each `close` on a chunked response sends
the terminal frame, `send_headers` sends no body bytes. -/
def bodyEmits (chunked : Bool) : List Op → List String
  | [] => []
  | .sendHeaders :: ops => bodyEmits chunked ops
  | .write d :: ops =>
    (if chunked then write_chunk_payload d else d) :: bodyEmits chunked ops
  | .close :: ops =>
    if chunked then write_chunk_payload "" :: bodyEmits chunked ops
    else bodyEmits chunked ops

/-- The only ways a header can survive the filter of `Response.__init__`:
its name is not hop-by-hop, or it is a `Transfer-Encoding` header (either
value sub-case falls through to the append), or it is
`Connection: Upgrade`. -/
def survivesFilter (n v : String) : Prop :=
  is_hoppish n = false ∨ pyStrip (pyLower n) = "transfer-encoding" ∨
    (pyStrip (pyLower n) = "connection" ∧ pyStrip (pyLower v) = "upgrade")

instance (n v : String) : Decidable (survivesFilter n v) := by
  unfold survivesFilter
  infer_instance

theorem processHeaders_chunked_of_true (l : List (String × String)) :
    ∀ acc, (Response.processHeaders true acc l).1 = true := by
  induction l with
  | nil => intro acc; rfl
  | cons hd tl ih =>
    intro acc
    obtain ⟨name, value⟩ := hd
    simp only [Response.processHeaders]
    repeat' split
    all_goals exact ih _

theorem processHeaders_mem_mono (l : List (String × String)) :
    ∀ (c : Bool) (acc : List (String × String)) (x : String × String),
    x ∈ acc → x ∈ (Response.processHeaders c acc l).2 := by
  induction l with
  | nil => intro c acc x hx; exact hx
  | cons hd tl ih =>
    intro c acc x hx
    obtain ⟨name, value⟩ := hd
    simp only [Response.processHeaders]
    repeat' split
    all_goals first
      | exact ih _ _ _ (List.mem_append_left _ hx)
      | exact ih _ _ _ hx

theorem processHeaders_te_chunked (l : List (String × String)) :
    ∀ (c : Bool) (acc : List (String × String)) (n v : String),
    (n, v) ∈ l → pyStrip (pyLower n) = "transfer-encoding" →
    pyStrip (pyLower v) = "chunked" →
    (Response.processHeaders c acc l).1 = true ∧
      (pyStrip n, pyStrip v) ∈ (Response.processHeaders c acc l).2 := by
  induction l with
  | nil => intro c acc n v h; cases h
  | cons hd tl ih =>
    intro c acc n v hmem hn hv
    obtain ⟨name, value⟩ := hd
    rcases List.mem_cons.mp hmem with heq | htl
    · injection heq with h1 h2
      subst h1; subst h2
      have hhop : is_hoppish n = true := by
        unfold is_hoppish
        rw [hn]
        decide
      simp only [Response.processHeaders, hn, hv, if_true]
      rw [if_pos hhop]
      exact ⟨processHeaders_chunked_of_true tl _,
        processHeaders_mem_mono tl _ _ _ (List.mem_append_right _ (by simp))⟩
    · simp only [Response.processHeaders]
      repeat' split
      all_goals exact ih _ _ _ _ htl hn hv

theorem processHeaders_mem_src (l : List (String × String)) :
    ∀ (c : Bool) (acc : List (String × String)) (x : String × String),
    x ∈ (Response.processHeaders c acc l).2 →
    x ∈ acc ∨ ∃ n v, (n, v) ∈ l ∧ x = (pyStrip n, pyStrip v) ∧ survivesFilter n v := by
  induction l with
  | nil => intro c acc x hx; exact Or.inl hx
  | cons hd tl ih =>
    intro c acc x hx
    obtain ⟨name, value⟩ := hd
    have hkept : ∀ (c' : Bool), x ∈ (Response.processHeaders c'
        (acc ++ [(pyStrip name, pyStrip value)]) tl).2 →
        survivesFilter name value →
        x ∈ acc ∨ ∃ n v, (n, v) ∈ (name, value) :: tl ∧
          x = (pyStrip n, pyStrip v) ∧ survivesFilter n v := by
      intro c' hx' hcond
      rcases ih _ _ _ hx' with hacc | ⟨n, v, hin, hxe, hc⟩
      · rcases List.mem_append.mp hacc with h | h
        · exact Or.inl h
        · refine Or.inr ⟨name, value, List.mem_cons_self _ _, ?_, hcond⟩
          simpa using h
      · exact Or.inr ⟨n, v, List.mem_cons_of_mem _ hin, hxe, hc⟩
    have hdropped : ∀ (c' : Bool), x ∈ (Response.processHeaders c' acc tl).2 →
        x ∈ acc ∨ ∃ n v, (n, v) ∈ (name, value) :: tl ∧
          x = (pyStrip n, pyStrip v) ∧ survivesFilter n v := by
      intro c' hx'
      rcases ih _ _ _ hx' with hacc | ⟨n, v, hin, hxe, hc⟩
      · exact Or.inl hacc
      · exact Or.inr ⟨n, v, List.mem_cons_of_mem _ hin, hxe, hc⟩
    simp only [Response.processHeaders] at hx
    split at hx
    case isTrue hhop =>
      split at hx
      case isTrue hte =>
        split at hx
        case isTrue hch => exact hkept _ hx (Or.inr (Or.inl hte))
        case isFalse hch => exact hkept _ hx (Or.inr (Or.inl hte))
      case isFalse hte =>
        split at hx
        case isTrue hconn =>
          split at hx
          case isTrue hup => exact hdropped _ hx
          case isFalse hup =>
            exact hkept _ hx (Or.inr (Or.inr ⟨hconn, not_not.mp hup⟩))
        case isFalse hconn => exact hdropped _ hx
    case isFalse hhop =>
      exact hkept _ hx (Or.inl (by simpa using hhop))

theorem send_headers_of_sent (r : Response) (h : r.headers_sent = true) :
    r.send_headers = r := by
  simp [Response.send_headers, h]

theorem runOps_sock_of_sent (ops : List Op) :
    ∀ (r : Response), r.headers_sent = true →
    (Response.runOps r ops).sock = r.sock ++ bodyEmits r.chunked ops := by
  induction ops with
  | nil => intro r _; simp [Response.runOps, bodyEmits]
  | cons op ops ih =>
    intro r h
    cases op with
    | sendHeaders =>
      simp only [Response.runOps, bodyEmits]
      rw [send_headers_of_sent r h]
      exact ih r h
    | write d =>
      simp only [Response.runOps, bodyEmits]
      have hw : (r.write (.str d)).1 =
          { r with sock := r.sock ++ [if r.chunked then write_chunk_payload d else d] } := by
        simp [Response.write, send_headers_of_sent r h]
      rw [hw]
      rw [ih _ (show ({ r with
        sock := r.sock ++ [if r.chunked then write_chunk_payload d else d]
        } : Response).headers_sent = true from h)]
      simp
    | close =>
      simp only [Response.runOps, bodyEmits]
      have hc : r.close = if r.chunked then
          { r with sock := r.sock ++ [write_chunk_payload ""] } else r := by
        simp [Response.close, send_headers_of_sent r h, h]
      rw [hc]
      by_cases hch : r.chunked = true
      · rw [if_pos hch]
        rw [ih _ (show ({ r with
          sock := r.sock ++ [write_chunk_payload ""] } : Response).headers_sent = true from h)]
        simp [hch]
      · rw [if_neg hch]
        rw [ih _ h]
        simp [hch]

/-! ## Claim theorems -/

/-- Claim C1 (code bug): the spec says the resolved forwarded address used
for `REMOTE_ADDR` is the last comma-separated token of `X-Forwarded-For`,
trimmed, and the code's own comment says so too — but line 181 stores the
last token into the misspelled, never-read local `forward_adress`, so the
code actually uses the whole comma-joined value.  At the spec's own
example input, `REMOTE_ADDR` is the full header value, not `203.0.113.5`;
the trimmed last token really is `203.0.113.5`, so the discarded
computation was the intended one. -/
theorem c1_forward_address_dead_store :
    (Request.readAddrs [("X-Forwarded-For", "10.0.0.1, 10.0.0.2, 203.0.113.5")]
        (some "198.51.100.7:1234") "127.0.0.1:80").REMOTE_ADDR =
      "10.0.0.1, 10.0.0.2, 203.0.113.5" ∧
    (Request.readAddrs [("X-Forwarded-For", "10.0.0.1, 10.0.0.2, 203.0.113.5")]
        (some "198.51.100.7:1234") "127.0.0.1:80").REMOTE_ADDR ≠ "203.0.113.5" ∧
    pyStrip ((pySplit ',' "10.0.0.1, 10.0.0.2, 203.0.113.5").getLastD "") =
      "203.0.113.5" := by
  decide

/-- Claim C2, counterexample: the claim says a `Transfer-Encoding: chunked`
input header sets the chunked flag AND is absent from the outgoing header
list.  The flag is set, but the header is appended to the outgoing list
(the `transfer-encoding` branch of `Response.__init__` has no `continue`),
so the absence half is false. -/
theorem c2_counterexample :
    (Response.init "v" "d" false .base "200 OK"
        [("Transfer-Encoding", "chunked")]).chunked = true ∧
    ("Transfer-Encoding", "chunked") ∈
      (Response.init "v" "d" false .base "200 OK"
        [("Transfer-Encoding", "chunked")]).headers := by
  decide

/-- Claim C2, amended: for every header list containing a
`Transfer-Encoding` header whose value is `chunked` (case-insensitively,
after trimming), the constructed response has its chunked flag set to true,
and that Transfer-Encoding header is RETAINED (trimmed) in the outgoing
header list — it is echoed back, not dropped. -/
theorem c2_te_chunked_sets_flag_and_retains (version date : String)
    (sc : Bool) (kind : RespKind) (status : String)
    (headers : List (String × String)) (n v : String)
    (hmem : (n, v) ∈ headers)
    (hn : pyStrip (pyLower n) = "transfer-encoding")
    (hv : pyStrip (pyLower v) = "chunked") :
    (Response.init version date sc kind status headers).chunked = true ∧
    (pyStrip n, pyStrip v) ∈
      (Response.init version date sc kind status headers).headers :=
  processHeaders_te_chunked headers false [] n v hmem hn hv

/-- Witness for C2's amended theorem at the concrete header list
containing only `Transfer-Encoding: chunked`. -/
theorem c2_witness :
    (Response.init "v" "d" false .base "200 OK"
        [("Transfer-Encoding", "chunked")]).chunked = true ∧
    (pyStrip "Transfer-Encoding", pyStrip "chunked") ∈
      (Response.init "v" "d" false .base "200 OK"
        [("Transfer-Encoding", "chunked")]).headers :=
  c2_te_chunked_sets_flag_and_retains "v" "d" false .base "200 OK"
    [("Transfer-Encoding", "chunked")] "Transfer-Encoding" "chunked"
    (by decide) (by decide) (by decide)

/-- Claim C3, counterexample: the claim says a non-text body value fails
before any bytes are written.  On a fresh response (nothing written yet,
headers not sent), `write` of a non-string raises the typed validation
error, but the transport transcript is no longer empty — the implicit
`send_headers()` ran first and emitted the header block. -/
theorem c3_counterexample :
    (Response.init "v" "d" false .base "200 OK" []).sock = [] ∧
    ((Response.init "v" "d" false .base "200 OK" []).write .nonStr).2 =
      some .invalidBodyType ∧
    ((Response.init "v" "d" false .base "200 OK" []).write .nonStr).1.sock ≠ [] := by
  decide

/-- Claim C3, amended: for every response state, writing a non-text value
fails with the typed validation error and no BODY bytes are written for
that call — but `write` invokes `send_headers()` before validating, so the
resulting state is exactly the post-header-send state (the header block is
emitted by that call whenever headers were not already sent). -/
theorem c3_write_nonstring (r : Response) :
    (r.write .nonStr).2 = some .invalidBodyType ∧
    (r.write .nonStr).1 = r.send_headers :=
  ⟨rfl, rfl⟩

/-- Claim C4: calling `start_response` a second time with no `exc_info`
after a response already exists raises `AssertionError`; calling it with
`exc_info` re-raises the captured error exactly when the previous response
has already sent its headers, and otherwise swallows the error and
installs a fresh response. -/
theorem c4_start_response_contract (s : Session) (status : String)
    (headers : List (String × String)) :
    (s.response ≠ none →
      Request.start_response s status headers none = .error .assertionError) ∧
    ∀ e : ExcInfo,
      (Request.start_response s status headers (some e) = .error (.reraised e) ↔
        ∃ r, s.response = some r ∧ r.headers_sent = true) ∧
      ((∀ r, s.response = some r → r.headers_sent = false) →
        Request.start_response s status headers (some e) =
          .ok { s with response := some (Response.init s.version s.date
            s.req_should_close s.kind status headers) }) := by
  constructor
  · intro hne
    cases hresp : s.response with
    | none => exact absurd hresp hne
    | some r => simp [Request.start_response, hresp]
  · intro e
    constructor
    · constructor
      · intro h
        cases hresp : s.response with
        | none => simp [Request.start_response, hresp] at h
        | some r =>
          by_cases hs : r.headers_sent = true
          · exact ⟨r, rfl, hs⟩
          · simp [Request.start_response, hresp, hs] at h
      · rintro ⟨r, hr, hs⟩
        simp [Request.start_response, hr, hs]
    · intro hall
      cases hresp : s.response with
      | none => simp [Request.start_response, hresp]
      | some r => simp [Request.start_response, hresp, hall r hresp]

/-- A response whose headers have already been sent, for the C4 witness. -/
def sentResponse : Response :=
  { status := "200 OK", version := "v", date := "d", req_should_close := false, kind := .base, chunked := false, headers := [], headers_sent := true, sock := ["block"] }

/-- A session whose current response has already sent its headers. -/
def sentSession : Session :=
  { version := "v", date := "d", req_should_close := false, kind := .base, response := some sentResponse }

/-- A session with no response started yet. -/
def freshSession : Session :=
  { version := "v", date := "d", req_should_close := false, kind := .base, response := none }

/-- Witness for C4 at concrete sessions: one whose response has sent its
headers (second plain call fails the assert, `exc_info` call re-raises) and
one with no response yet (`exc_info` call is swallowed and a fresh
response is installed). -/
theorem c4_witness :
    Request.start_response sentSession "500 Error" [] none =
      .error .assertionError ∧
    Request.start_response sentSession "500 Error" [] (some ⟨"boom"⟩) =
      .error (.reraised ⟨"boom"⟩) ∧
    Request.start_response freshSession "500 Error" [] (some ⟨"boom"⟩) =
      .ok { freshSession with
            response := some (Response.init "v" "d" false .base "500 Error" []) } := by
  refine ⟨?_, ?_, ?_⟩
  · exact (c4_start_response_contract _ "500 Error" []).1 (by decide)
  · exact ((c4_start_response_contract _ "500 Error" []).2 ⟨"boom"⟩).1.mpr
      ⟨_, rfl, rfl⟩
  · exact ((c4_start_response_contract _ "500 Error" []).2 ⟨"boom"⟩).2
      (fun r h => nomatch h)

/-- Claim C5: over any sequence of `sendHeaders`/`write`/`close` operations
on a response that has not yet sent its headers and has written nothing,
the transport transcript is exactly one header block (for a nonempty
sequence) followed by the body emissions of the operations — the header
block is written exactly once no matter how often the operations are
invoked — and `send_headers` is a no-op once the headers-sent flag is
set. -/
theorem c5_headers_exactly_once (r : Response) (ops : List Op)
    (hsent : r.headers_sent = false) (hsock : r.sock = []) :
    ((Response.runOps r ops).sock =
      match ops with
      | [] => []
      | _ :: _ => r.headerBlock :: bodyEmits r.chunked ops) ∧
    (∀ r' : Response, r'.headers_sent = true → r'.send_headers = r') := by
  refine ⟨?_, fun r' h => send_headers_of_sent r' h⟩
  have hsend : r.send_headers =
      { r with sock := [r.headerBlock], headers_sent := true } := by
    simp [Response.send_headers, hsent, hsock]
  cases ops with
  | nil => simpa [Response.runOps] using hsock
  | cons op ops' =>
    cases op with
    | sendHeaders =>
      simp only [Response.runOps, bodyEmits]
      rw [hsend]
      rw [runOps_sock_of_sent ops' _ rfl]
      simp
    | write d =>
      simp only [Response.runOps, bodyEmits]
      have hw : (r.write (.str d)).1 = { r with sock := [r.headerBlock, if r.chunked then write_chunk_payload d else d], headers_sent := true } := by
        simp [Response.write, hsend]
      rw [hw]
      rw [runOps_sock_of_sent ops' _ rfl]
      simp
    | close =>
      simp only [Response.runOps, bodyEmits]
      have hc : r.close = if r.chunked then { r with sock := [r.headerBlock, write_chunk_payload ""], headers_sent := true } else { r with sock := [r.headerBlock], headers_sent := true } := by
        simp only [Response.close, hsent, Bool.false_eq_true, if_false, hsend]
        by_cases hch : r.chunked = true
        · rw [if_pos hch, if_pos hch]
          simp
        · rw [if_neg hch, if_neg hch]
      rw [hc]
      by_cases hch : r.chunked = true
      · rw [if_pos hch, if_pos hch]
        rw [runOps_sock_of_sent ops' _ rfl]
        simp [hch]
      · rw [if_neg hch, if_neg hch]
        rw [runOps_sock_of_sent ops' _ rfl]
        simp [hch]

/-- Witness for C5 at a concrete fresh response and a sequence that calls
`sendHeaders` twice, writes, and closes: the transcript is one header
block followed by the body writes. -/
theorem c5_witness :
    (Response.init "v" "d" false .base "200 OK" []).headers_sent = false ∧
    ((Response.init "v" "d" false .base "200 OK" []).runOps
        [.sendHeaders, .write "hi", .sendHeaders, .close]).sock =
      (Response.init "v" "d" false .base "200 OK" []).headerBlock ::
        bodyEmits false [.sendHeaders, .write "hi", .sendHeaders, .close] := by
  have h := c5_headers_exactly_once (Response.init "v" "d" false .base "200 OK" [])
    [.sendHeaders, .write "hi", .sendHeaders, .close] rfl rfl
  exact ⟨rfl, h.1⟩

/-- Claim C6, counterexample: the claim allows only `Transfer-Encoding:
chunked` and `Connection: Upgrade` as hop-by-hop survivors, but a
`Transfer-Encoding: gzip` header — hop-by-hop, value not `chunked`, name
not `Connection` — survives into the outgoing header list. -/
theorem c6_counterexample :
    ("Transfer-Encoding", "gzip") ∈
      (Response.init "v" "d" false .base "200 OK"
        [("Transfer-Encoding", "gzip")]).headers ∧
    is_hoppish "Transfer-Encoding" = true ∧
    pyStrip (pyLower "gzip") ≠ "chunked" ∧
    pyStrip (pyLower "Transfer-Encoding") ≠ "connection" := by
  decide

/-- Claim C6, amended: every header in the emitted response's header list
is the trimmed form of an input header that is either not hop-by-hop, or a
`Transfer-Encoding` header (any value — such headers are retained, with
`chunked` additionally setting the chunked flag), or `Connection: Upgrade`.
Equivalently, every hop-by-hop header other than Transfer-Encoding headers
and `Connection: Upgrade` is absent from the emitted header list. -/
theorem c6_hop_by_hop_filtered (version date : String) (sc : Bool)
    (kind : RespKind) (status : String) (headers : List (String × String))
    (n v : String)
    (hmem : (n, v) ∈ (Response.init version date sc kind status headers).headers) :
    ∃ n₀ v₀, (n₀, v₀) ∈ headers ∧ n = pyStrip n₀ ∧ v = pyStrip v₀ ∧
      survivesFilter n₀ v₀ := by
  rcases processHeaders_mem_src headers false [] (n, v) hmem with hacc | hsrc
  · cases hacc
  · obtain ⟨n₀, v₀, hin, hxe, hc⟩ := hsrc
    injection hxe with h1 h2
    exact ⟨n₀, v₀, hin, h1, h2, hc⟩

/-- Witness for C6's amended theorem at a concrete list with one ordinary
header. -/
theorem c6_witness :
    ∃ n₀ v₀, (n₀, v₀) ∈ [("X-Custom", " a ")] ∧
      "X-Custom" = pyStrip n₀ ∧ "a" = pyStrip v₀ ∧ survivesFilter n₀ v₀ :=
  c6_hop_by_hop_filtered "v" "d" false .base "200 OK" [("X-Custom", " a ")]
    "X-Custom" "a" (by decide)

/-- Claim C7: the keep-alive variant's default header block keeps the
status, Server and Date lines of the base variant and replaces only the
Connection line, whose value is `close` when the parsed request's
`should_close()` signal is true and `keep-alive` otherwise. -/
theorem c7_keepalive_connection_header (r : Response) :
    KeepAliveResponse.default_headers r =
      (Response.default_headers r).take 3 ++
        ["Connection: " ++
          (if r.req_should_close then "close" else "keep-alive") ++ "\r\n"] := by
  rfl

/-- Claim C8: the keep-alive session's `read` absorbs a socket error whose
errno is `ECONNRESET`, returning the end-of-stream sentinel (`none`)
instead of raising; every socket error with a different errno propagates
unchanged, and a successful base read passes through. -/
theorem c8_keepalive_read_reset (α : Type) (e : SocketError) :
    (e.errno = ECONNRESET →
      KeepAliveRequest.read (α := α) (.error e) = .ok none) ∧
    (e.errno ≠ ECONNRESET →
      KeepAliveRequest.read (α := α) (.error e) = .error e) ∧
    (∀ a : α, KeepAliveRequest.read (.ok a) = .ok (some a)) := by
  refine ⟨fun h => ?_, fun h => ?_, fun a => rfl⟩
  · simp [KeepAliveRequest.read, h]
  · simp [KeepAliveRequest.read, h]

/-- Witness for C8: errno 104 (`ECONNRESET`) is absorbed into the sentinel,
errno 32 (`EPIPE`) propagates. -/
theorem c8_witness :
    (⟨104⟩ : SocketError).errno = ECONNRESET ∧
    KeepAliveRequest.read (α := Nat) (.error ⟨104⟩) = .ok none ∧
    (⟨32⟩ : SocketError).errno ≠ ECONNRESET ∧
    KeepAliveRequest.read (α := Nat) (.error ⟨32⟩) = .error ⟨32⟩ :=
  ⟨by decide, (c8_keepalive_read_reset Nat ⟨104⟩).1 (by decide),
   by decide, (c8_keepalive_read_reset Nat ⟨32⟩).2.1 (by decide)⟩

/-- Claim C9, counterexample: the claim says addresses are split on the
LAST colon into host and port.  The code splits on every colon and takes
the first two tokens, so for the address `a:b:c` it yields host `a` and
port `b`, while a last-colon split yields host `a:b` and port `c`; the
two disagree, and `REMOTE_ADDR` for that client address is `a`. -/
theorem c9_counterexample :
    Request.addrPair "a:b:c" = ("a", "b") ∧
    specSplitLastColon "a:b:c" = ("a:b", "c") ∧
    Request.addrPair "a:b:c" ≠ specSplitLastColon "a:b:c" ∧
    (Request.readAddrs [] (some "a:b:c") "s").REMOTE_ADDR = "a" := by
  decide

/-- Claim C9, amended: every string client or server address is split on
EVERY colon, the host being the token before the first colon and the port
the token between the first and second colons, with an empty-string port
when no colon exists (the total function never fails); in particular, with
no `X-Forwarded-For` and client address `192.168.1.5:54321`, the context
mapping has `REMOTE_ADDR=192.168.1.5` and `REMOTE_PORT=54321`. -/
theorem c9_colon_split (addr : String) :
    Request.addrPair addr =
      ((pySplit ':' addr).headD "", (pySplit ':' addr).getD 1 "") ∧
    (Request.readAddrs [] (some "192.168.1.5:54321")
      "203.0.113.9:8000").REMOTE_ADDR = "192.168.1.5" ∧
    (Request.readAddrs [] (some "192.168.1.5:54321")
      "203.0.113.9:8000").REMOTE_PORT = "54321" := by
  refine ⟨?_, by decide, by decide⟩
  unfold Request.addrPair Request.splitAddress
  by_cases h : (pySplit ':' addr).length = 1
  · obtain ⟨a, ha⟩ := List.length_eq_one.mp h
    simp [h, ha]
  · simp [h]

/-- Claim C10: the base response's default header block always contains the
line `Connection: close`, at the fixed fourth position, and that line is a
constant — independent of the status, the request and the headers the
handler supplied. -/
theorem c10_base_connection_close (v d : String) (sc : Bool) (status : String)
    (headers : List (String × String)) (v' d' : String) (sc' : Bool)
    (status' : String) (headers' : List (String × String)) :
    "Connection: close\r\n" ∈
      Response.default_headers (Response.init v d sc .base status headers) ∧
    (Response.default_headers (Response.init v d sc .base status headers))[3]? =
      some "Connection: close\r\n" ∧
    (Response.default_headers (Response.init v d sc .base status headers))[3]? =
      (Response.default_headers
        (Response.init v' d' sc' .base status' headers'))[3]? := by
  refine ⟨?_, rfl, rfl⟩
  simp [Response.default_headers]

end GunicornWsgi
